import Mathlib

/-!
Verification of the pgxl-test-suite counted-transaction protocol clients.

This file gives a shallow embedding of the two device clients
(`src/pgxl_testkit/devices/flex.py`, `FlexRadio`, and
`src/pgxl_testkit/devices/pgxl.py`, `PGXL`) and proves properties of the
transaction engine, the line framer, the cached band-persistence state and
the telemetry parser.

Modelling conventions:
- Wire text is modelled as `List Char`; Python `str` methods are translated
  into structurally recursive functions on character lists.
- The socket is modelled by an explicit stream of receive events: each call
  of the Python `_read_lines` consumes one `RecvEvent` (a data chunk, a
  `socket.timeout`, or a closed/errored read).  The real-time deadline of
  the reply-wait loop is abstracted into the finiteness of the event list:
  the list holds exactly the reads that happen before the deadline fires.
- Python exceptions are `Except` results; object-attribute mutation that
  survives an exception is captured by always returning the post state.
- Python `float` values are modelled as exact rationals (`ℚ`); `float(s)`
  is modelled for finite decimal literals, the only forms the protocol
  payloads use.
-/

/-- Python `str.isspace` characters relevant to `str.strip()` / `str.split()`. -/
def pyWS (c : Char) : Bool :=
  c = ' ' || c = '\t' || c = '\n' || c = '\r' || c = '\x0b' || c = '\x0c'

/-- Python `s.strip()`: drop whitespace from both ends. -/
def stripL (l : List Char) : List Char :=
  ((l.dropWhile pyWS).reverse.dropWhile pyWS).reverse

/-- `startsW pat l`: Python `l.startswith(pat)`. -/
def startsW : List Char → List Char → Bool
  | [], _ => true
  | _ :: _, [] => false
  | a :: as, b :: bs => a = b && startsW as bs

/-- Helper for `afterSub`: Python `l.split(pat, 1)[1]`, i.e. the text after
the first occurrence of `pat` in `l` (`none` when `pat` does not occur). -/
def afterSub (pat : List Char) : List Char → Option (List Char)
  | [] => if startsW pat [] then some [] else none
  | c :: rest =>
      if startsW pat (c :: rest) then some ((c :: rest).drop pat.length)
      else afterSub pat rest

/-- Python `pat in l` (substring containment). -/
def containsSub (pat : List Char) (l : List Char) : Bool :=
  (afterSub pat l).isSome

/-- Helper for `tokens`; accumulates the current (reversed) token. -/
def tokensAux (cur : List Char) : List Char → List (List Char)
  | [] => if cur = [] then [] else [cur.reverse]
  | c :: rest =>
      if pyWS c then
        if cur = [] then tokensAux [] rest else cur.reverse :: tokensAux [] rest
      else tokensAux (c :: cur) rest

/-- Python `s.split()` (split on whitespace runs, no empty tokens). -/
def tokens (l : List Char) : List (List Char) := tokensAux [] l

/-- Numeric value of a list of decimal digit characters. -/
def digitsToNat (l : List Char) : Nat :=
  l.foldl (fun a c => a * 10 + (c.toNat - '0'.toNat)) 0

/-- Modelled from Python `float(s)` restricted to finite decimal literals
(optional sign, digits, optional fractional part); exponent, `inf`/`nan`
and digit-underscore forms are not produced by the device protocol and are
mapped to `none` like any other unparsable input.  Exact rational value. -/
def parseFloat (s : List Char) : Option ℚ :=
  let t := stripL s
  let neg : Bool := match t with
    | '-' :: _ => true
    | _ => false
  let t2 := match t with
    | '-' :: r => r
    | '+' :: r => r
    | _ => t
  let ip := t2.takeWhile Char.isDigit
  let rest := t2.dropWhile Char.isDigit
  let signed : Int → Int := fun n => if neg then -n else n
  match rest with
  | [] => if ip = [] then none else some (mkRat (signed (digitsToNat ip)) 1)
  | '.' :: fr =>
      if fr.all Char.isDigit && (ip ≠ [] || fr ≠ []) then
        some (mkRat (signed (digitsToNat ip * 10 ^ fr.length + digitsToNat fr))
          (10 ^ fr.length))
      else none
  | _ => none

/-- Modelled from Python `int(s, 10)` (strip, optional sign, decimal digits);
digit-underscore forms are not produced by the protocol and map to `none`. -/
def parseInt (s : List Char) : Option Int :=
  let t := stripL s
  match t with
  | '-' :: r => if r ≠ [] && r.all Char.isDigit then some (-(digitsToNat r : Int)) else none
  | '+' :: r => if r ≠ [] && r.all Char.isDigit then some ((digitsToNat r : Int)) else none
  | _ => if t ≠ [] && t.all Char.isDigit then some ((digitsToNat t : Int)) else none

deriving instance DecidableEq for Except

/-- The decimal digits of a natural number, as characters. -/
def natChars (n : Nat) : List Char := (Nat.repr n).data

/-- The decimal digits of an integer, as characters (Python `str(i)`). -/
def intChars (i : Int) : List Char := (Int.repr i).data

namespace Flex

/-- One result of the Python `socket.recv` inside `FlexRadio._read_lines`:
either data arrived (`data []` is a peer close / errored read, returning no
lines), or the 0.1 s socket timeout fired (`timeout`, which still drains any
complete lines already buffered). -/
inductive RecvEvent where
  | timeout
  | data (s : List Char)
deriving Repr, DecidableEq

/-- The mutable attributes of a `FlexRadio` object (flex.py lines 6-14):
`_connected`, `_sock is not None`, `_seq`, `_rxbuf`, `_last_band_persistence`. -/
structure FlexState where
  connected : Bool
  hasSock : Bool
  seq : Nat
  rxbuf : List Char
  lastBandPersistence : Option Bool
deriving Repr, DecidableEq

/-- Errors raised by the `FlexRadio` methods modelled here.  `notConnected`
is the `RuntimeError("FlexRadio is not connected.")` of `_send_counted`
(the spec's `ConnectionError` kind for operations while disconnected);
`timeout seq body` is `TimeoutError(f"No response for sequence {seq}
(body='{body}')")`; `unsupportedBand b` is the
`ValueError(f"Unsupported band: {b} m")` of `_band_center_mhz` (the spec's
`UnsupportedBandError` kind). -/
inductive FlexError where
  | notConnected
  | timeout (seq : Nat) (body : List Char)
  | unsupportedBand (band : Int)
deriving Repr, DecidableEq

/-- The buffer-splitting loop of `_read_lines` (flex.py lines 73-77):
`while "\n" in rxbuf: line, rxbuf = rxbuf.split("\n", 1);
lines.append(line.strip())`.  Returns the stripped complete lines and the
retained partial tail.  `cur` is the (reversed) current line accumulator. -/
def splitNlAux (cur : List Char) : List Char → List (List Char) × List Char
  | [] => ([], cur.reverse)
  | c :: rest =>
      if c = '\n' then
        let (ls, buf) := splitNlAux [] rest
        (stripL cur.reverse :: ls, buf)
      else splitNlAux (c :: cur) rest

/-- Split a receive buffer at every newline; complete lines are stripped,
the trailing fragment stays buffered. -/
def splitNl (buf : List Char) : List (List Char) × List Char := splitNlAux [] buf

/-- `FlexRadio._read_lines` (flex.py lines 61-77) for one `recv` outcome:
no socket → no lines; closed/errored read (`data []`) → no lines, buffer
kept; timeout → no new bytes but buffered complete lines are still split
out; data → append chunk to the buffer and split.  Returns the produced
lines and the new `_rxbuf`. -/
def read_lines (hasSock : Bool) (rxbuf : List Char) (ev : RecvEvent) :
    List (List Char) × List Char :=
  if hasSock then
    match ev with
    | .timeout => splitNl rxbuf
    | .data s => if s = [] then ([], rxbuf) else splitNl (rxbuf ++ s)
  else ([], rxbuf)

/-- The reply-matching scan of `_send_counted` (flex.py lines 91-93 and
96-98): return the first line starting with `want`, later lines in the
same batch being dropped with the batch. -/
def findR (want : List Char) : List (List Char) → Option (List Char)
  | [] => none
  | l :: ls => if startsW want l then some l else findR want ls

/-- The reply-wait loop of `_send_counted` (flex.py lines 89-99): repeatedly
read lines and look for the `want` prefix until the event stream — the reads
that happen before the deadline — is exhausted.  Returns the matched line
(if any) and the final `_rxbuf`. -/
def waitReply (hasSock : Bool) (want : List Char) :
    List RecvEvent → List Char → Option (List Char) × List Char
  | [], buf => (none, buf)
  | ev :: evs, buf =>
      match findR want (read_lines hasSock buf ev).1 with
      | some l => (some l, (read_lines hasSock buf ev).2)
      | none => waitReply hasSock want evs (read_lines hasSock buf ev).2

/-- The outgoing frame `f"C{seq}|{body}\n"` of flex.py line 83. -/
def frameC (seq : Nat) (body : List Char) : List Char :=
  'C' :: natChars seq ++ '|' :: (body ++ ['\n'])

/-- The reply prefix `f"R{seq}|"` of flex.py line 88. -/
def wantR (seq : Nat) : List Char := 'R' :: natChars seq ++ ['|']

/-- Outcome of one `FlexRadio` operation: the frames written to the wire
during the call, the returned value or raised error, and the object state
after the call (attribute mutations survive a raised exception). -/
structure SendOut where
  wire : List (List Char)
  result : Except FlexError (Option (List Char))
  post : FlexState
deriving Repr, DecidableEq

/-- `FlexRadio._send_counted` (flex.py lines 79-100): refuse when not
connected; allocate the next sequence number (pre-increment, line 82);
write `C{seq}|{body}\n`; if no response is expected return `None`;
otherwise scan incoming lines for the `R{seq}|` prefix until the deadline,
raising `TimeoutError` with the sequence and body when no match arrives. -/
def send_counted (st : FlexState) (body : List Char) (expectResponse : Bool)
    (evs : List RecvEvent) : SendOut :=
  if st.connected && st.hasSock then
    let seq := st.seq + 1
    if expectResponse then
      match waitReply st.hasSock (wantR seq) evs st.rxbuf with
      | (some l, buf) =>
          ⟨[frameC seq body], .ok (some l),
            { st with seq := seq, rxbuf := buf }⟩
      | (none, buf) =>
          ⟨[frameC seq body], .error (.timeout seq body),
            { st with seq := seq, rxbuf := buf }⟩
    else ⟨[frameC seq body], .ok none, { st with seq := seq }⟩
  else ⟨[], .error .notConnected, st⟩

/-- The state reset performed by `FlexRadio.connect` before priming
(flex.py lines 19-23): fresh socket, `_seq = 0`, `_rxbuf = ""`,
`_connected = True`.  `_last_band_persistence` is not touched. -/
def connect_reset (st : FlexState) : FlexState :=
  { st with hasSock := true, seq := 0, rxbuf := [], connected := true }

/-- `FlexRadio.disconnect` (flex.py lines 47-54): close and drop the socket,
clear `_connected` and `_rxbuf`.  `_last_band_persistence` is not touched. -/
def disconnect (st : FlexState) : FlexState :=
  { st with hasSock := false, connected := false, rxbuf := [] }

/-- The key searched for by the opportunistic scanner (flex.py line 120). -/
def bpKey : List Char := "band_persistence_enabled=".data

/-- One iteration of `_scan_for_band_persistence` (flex.py lines 119-125):
if the line contains `band_persistence_enabled=`, take the text after it,
take its first whitespace-separated token, and record whether the stripped
token is `1`, `true` or `True`; parse failures (no token) are swallowed. -/
def scanLine (st : FlexState) (line : List Char) : FlexState :=
  if containsSub bpKey line then
    match afterSub bpKey line with
    | some rest =>
        match tokens rest with
        | v :: _ =>
            let s := stripL v
            let b := s == "1".data || s == "true".data || s == "True".data
            { st with lastBandPersistence := some b }
        | [] => st
    | none => st
  else st

/-- `FlexRadio._scan_for_band_persistence` (flex.py lines 118-125). -/
def scan_for_band_persistence (st : FlexState) (lines : List (List Char)) : FlexState :=
  lines.foldl scanLine st

/-- `FlexRadio.get_band_persistence_cached` (flex.py lines 127-129): a pure
read of the cached value; no transaction is issued. -/
def get_band_persistence_cached (st : FlexState) : Option Bool :=
  st.lastBandPersistence

/-- `FlexRadio.set_band_persistence` (flex.py lines 131-133): fire-and-forget
command, then record the commanded value in the cache.  When the send raises
(not connected) the assignment on line 133 is not reached. -/
def set_band_persistence (st : FlexState) (enabled : Bool) : SendOut :=
  match send_counted st
    ("radio set band_persistence_enabled=".data ++ (if enabled then "1".data else "0".data))
    false [] with
  | ⟨w, .ok v, p⟩ => ⟨w, .ok v, { p with lastBandPersistence := some enabled }⟩
  | ⟨w, .error e, p⟩ => ⟨w, .error e, p⟩

/-- Left-pad with `'0'` to width `w` (the `06` part of `%09.6f`-style output). -/
def padZeros (w : Nat) (l : List Char) : List Char :=
  List.replicate (w - l.length) '0' ++ l

/-- `FlexRadio._mhz` (flex.py lines 103-105): `f"{f:.6f}"`, fixed 6-decimal
formatting.  Modelled for the nonnegative exact-decimal frequencies the
façade produces, where rounding to the nearest multiple of 10⁻⁶ agrees with
Python's float formatting. -/
def mhz (f : ℚ) : List Char :=
  let n : Int := round (f * 1000000)
  intChars (n / 1000000) ++ '.' :: padZeros 6 (natChars (n % 1000000).toNat)

/-- The band→center-frequency table of `FlexRadio._band_center_mhz`
(flex.py lines 109-112), in MHz. -/
def centers : List (Int × ℚ) :=
  [(160, 1.900), (80, 3.750), (60, 5.358), (40, 7.150), (30, 10.125),
   (20, 14.175), (17, 18.118), (15, 21.225), (12, 24.940), (10, 28.850),
   (6, 50.500)]

/-- `FlexRadio._band_center_mhz` (flex.py lines 107-115): table lookup;
`none` models the `ValueError(f"Unsupported band: {band_m} m")`. -/
def band_center_mhz (band_m : Int) : Option ℚ := centers.lookup band_m

/-- `FlexRadio.set_mode` (flex.py lines 136-138). -/
def set_mode (st : FlexState) (mode : List Char) (evs : List RecvEvent) : SendOut :=
  send_counted st ("slice s 0 mode=".data ++ (stripL mode).map Char.toUpper) true evs

/-- `FlexRadio.set_frequency_mhz` (flex.py lines 140-142): a fire-and-forget
`slice s 0 tx=1` followed by an acknowledged `slice t 0 {f:.6f}`. -/
def set_frequency_mhz (st : FlexState) (f : ℚ) (evs : List RecvEvent) : SendOut :=
  match send_counted st ("slice s 0 tx=1".data) false [] with
  | ⟨w1, .error e, p1⟩ => ⟨w1, .error e, p1⟩
  | ⟨w1, .ok _, p1⟩ =>
      match send_counted p1 ("slice t 0 ".data ++ mhz f) true evs with
      | ⟨w2, res, p2⟩ => ⟨w1 ++ w2, res, p2⟩

/-- `FlexRadio.set_band` (flex.py lines 144-146): resolve the band center
(raising before anything is sent when the band is unsupported), then tune. -/
def set_band (st : FlexState) (band_m : Int) (evs : List RecvEvent) : SendOut :=
  match band_center_mhz band_m with
  | none => ⟨[], .error (.unsupportedBand band_m), st⟩
  | some ctr => set_frequency_mhz st ctr evs

/-- `FlexRadio.set_rf_power_pct` (flex.py lines 148-150): clamp to 0..100,
fire-and-forget. -/
def set_rf_power_pct (st : FlexState) (pct : Int) : SendOut :=
  let p := max 0 (min 100 pct)
  send_counted st ("transmit set rfpower=".data ++ intChars p) false []

/-- `FlexRadio.set_tune_power_pct` (flex.py lines 152-154). -/
def set_tune_power_pct (st : FlexState) (pct : Int) : SendOut :=
  let p := max 0 (min 100 pct)
  send_counted st ("transmit set tunepower=".data ++ intChars p) false []

/-- `FlexRadio.key_carrier_on` (flex.py lines 161-162). -/
def key_carrier_on (st : FlexState) (wait_ack : Bool) (evs : List RecvEvent) : SendOut :=
  send_counted st ("transmit tune on".data) wait_ack evs

/-- `FlexRadio.key_carrier_off` (flex.py lines 164-165). -/
def key_carrier_off (st : FlexState) (wait_ack : Bool) (evs : List RecvEvent) : SendOut :=
  send_counted st ("transmit tune off".data) wait_ack evs

/-- `FlexRadio.set_two_tone` (flex.py lines 167-169). -/
def set_two_tone (st : FlexState) (enabled : Bool) : SendOut :=
  send_counted st
    ("transmit set tune_mode=".data ++
      (if enabled then "two_tone".data else "single_tone".data))
    false []

/-- A run of consecutive transactional sends on one connection: each entry
gives the command body, the expect-response flag and the receive events of
that send's reply-wait loop.  Returns every frame written to the wire (in
order) and the final state; a raised per-send error leaves the frame that
was already written in the trace, as the real object does. -/
def run_sends (st : FlexState) :
    List (List Char × Bool × List RecvEvent) → List (List Char) × FlexState
  | [] => ([], st)
  | c :: cs =>
      let r := send_counted st c.1 c.2.1 c.2.2
      let rest := run_sends r.post cs
      (r.wire ++ rest.1, rest.2)

end Flex

namespace Pgxl

/-- The mutable attributes of a `PGXL` object (pgxl.py lines 5-12) used by
the transaction engine: `_sock is not None` and `_tx_id`. -/
structure PGXLState where
  hasSock : Bool
  tx_id : Nat
deriving Repr, DecidableEq

/-- Errors raised by `PGXL._send_counted` and `PGXL._parse_keyvals`:
`notConnected` is the `RuntimeError("Not connected to PGXL.")` (the spec's
`ConnectionError` kind); `malformedNoR`/`malformedNoBar`/`badCounter` are
the three `ValueError`s of `_send_counted`; `counterMismatch sent got` is
the `RuntimeError(f"Counter mismatch (sent {tx}, got {echoed_id})...")`;
`badFormat` is the `ValueError(f"Unexpected response format: ...")` of
`_parse_keyvals`. -/
inductive PgxlError where
  | notConnected
  | malformedNoR (reply : List Char)
  | malformedNoBar (reply : List Char)
  | badCounter (reply : List Char)
  | counterMismatch (sent : Nat) (got : Int)
  | badFormat (reply : List Char)
deriving Repr, DecidableEq

/-- Split at the first occurrence of `sep` (Python `s.split(sep, 1)`),
`none` when `sep` does not occur. -/
def splitAtChar (sep : Char) : List Char → Option (List Char × List Char)
  | [] => none
  | c :: rest =>
      if c = sep then some ([], rest)
      else
        match splitAtChar sep rest with
        | some p => some (c :: p.1, p.2)
        | none => none

/-- Outcome of one `PGXL` counted transaction: frames written, result or
raised error, post state. -/
structure PSendOut where
  wire : List (List Char)
  result : Except PgxlError (List Char)
  post : PGXLState
deriving Repr, DecidableEq

/-- `PGXL._send_counted` (pgxl.py lines 40-65): refuse when no socket is
open; allocate the next transaction id (pre-increment, `_next_tx_id`,
lines 30-32); write `C{tx}|{body}\r\n`; read and strip one reply line
(`_recv_line`, modelled by `recvData`); check the leading `R`, locate the
first `|`, parse the echoed counter `reply[1:bar]` in base 10, and compare
it with the id just sent — a mismatch raises, a match returns the reply. -/
def send_counted (st : PGXLState) (body : List Char) (recvData : List Char) : PSendOut :=
  if st.hasSock then
    let tx := st.tx_id + 1
    let st1 : PGXLState := { st with tx_id := tx }
    let wire := 'C' :: natChars tx ++ '|' :: (body ++ ['\r', '\n'])
    let reply := stripL recvData
    if startsW ("R".data) reply then
      match splitAtChar '|' reply with
      | none => ⟨[wire], .error (.malformedNoBar reply), st1⟩
      | some (pre, _) =>
          match parseInt (pre.drop 1) with
          | none => ⟨[wire], .error (.badCounter reply), st1⟩
          | some echoed_id =>
              if echoed_id = (tx : Int) then ⟨[wire], .ok reply, st1⟩
              else ⟨[wire], .error (.counterMismatch tx echoed_id), st1⟩
    else ⟨[wire], .error (.malformedNoR reply), st1⟩
  else ⟨[], .error .notConnected, st⟩

/-- `reply.split("|", 2)`: at most three parts. -/
def split2Bar (reply : List Char) : List (List Char) :=
  match splitAtChar '|' reply with
  | none => [reply]
  | some (a, rest) =>
      match splitAtChar '|' rest with
      | none => [a, rest]
      | some (b, rest2) => [a, b, rest2]

/-- Dictionary read, last insertion of the key winning (Python `dict`). -/
def kvGet (kv : List (List Char × List Char)) (k : List Char) : Option (List Char) :=
  kv.reverse.lookup k

/-- `PGXL._parse_keyvals` (pgxl.py lines 67-81): split on the first two
`|`; fewer than three parts raises; the key-value blob is stripped and
whitespace-split, tokens without `=` are ignored, others are split at the
first `=` and inserted in order. -/
def parse_keyvals (reply : List Char) :
    Except PgxlError (List Char × List (List Char × List Char)) :=
  match split2Bar reply with
  | [_, status, blobRaw] =>
      let kv := (tokens (stripL blobRaw)).foldl
        (fun m item =>
          match splitAtChar '=' item with
          | some (k, v) => m ++ [(k, v)]
          | none => m) []
      .ok (status, kv)
  | _ => .error (.badFormat reply)

/-- The inner `fget` of `PGXL.telemetry` (pgxl.py lines 113-117):
`float(kv[key])` with every exception mapped to `None`. -/
def fget (kv : List (List Char × List Char)) (key : List Char) : Option ℚ :=
  match kvGet kv key with
  | none => none
  | some v => parseFloat v

/-- Python's `a or b` on optional floats (pgxl.py line 124): `a` unless it
is `None` **or the float `0.0`** (both falsy), else `b`. -/
def pyOrFloat (a b : Option ℚ) : Option ℚ :=
  match a with
  | some x => if x = 0 then b else some x
  | none => b

/-- The record returned by `PGXL.telemetry` (pgxl.py lines 127-137). -/
structure Telemetry where
  Vd : Option ℚ
  Id : Option ℚ
  SWR : Option ℚ
  PoutW : Option ℚ
  PA_TempC : Option ℚ
  PS_TempC : Option ℚ
  Fan : Option (List Char)
  Faults : List (List Char)
  raw : List (List Char × List Char)
deriving Repr, DecidableEq

/-- The pure tail of `PGXL.telemetry` (pgxl.py lines 110-137): parse the
reply's key-values and build the normalized record; `PA_TempC` uses
`fget("hltemp") or fget("temp")`. -/
def telemetry_of_reply (reply : List Char) : Except PgxlError Telemetry :=
  match parse_keyvals reply with
  | .error e => .error e
  | .ok (_, kv) =>
      .ok { Vd := fget kv ("vdd".data)
            Id := fget kv ("id".data)
            SWR := fget kv ("swr".data)
            PoutW := fget kv ("fwd".data)
            PA_TempC := pyOrFloat (fget kv ("hltemp".data)) (fget kv ("temp".data))
            PS_TempC := fget kv ("temp".data)
            Fan := kvGet kv ("fanmode".data)
            Faults := []
            raw := kv }

/-- `PGXL.telemetry` (pgxl.py lines 104-137): issue the counted `status`
transaction, then parse the matched reply into the normalized record. -/
def telemetry (st : PGXLState) (recvData : List Char) :
    List (List Char) × Except PgxlError Telemetry × PGXLState :=
  match send_counted st ("status".data) recvData with
  | ⟨w, .error e, p⟩ => (w, .error e, p)
  | ⟨w, .ok reply, p⟩ => (w, telemetry_of_reply reply, p)

end Pgxl

/-! ## Helper lemmas about the transaction engine -/

namespace Flex

theorem findR_some_starts {want l : List Char} :
    ∀ {ls : List (List Char)}, findR want ls = some l → startsW want l = true := by
  intro ls
  induction ls with
  | nil => intro h; simp [findR] at h
  | cons x xs ih =>
      intro h
      by_cases hx : startsW want x = true
      · simp [findR, hx] at h
        subst h; exact hx
      · simp [findR, hx] at h
        exact ih h

theorem waitReply_some_starts {hs : Bool} {want l buf2 : List Char} :
    ∀ {evs : List RecvEvent} {buf : List Char},
      waitReply hs want evs buf = (some l, buf2) → startsW want l = true := by
  intro evs
  induction evs with
  | nil => intro buf h; simp [waitReply] at h
  | cons ev evs ih =>
      intro buf h
      unfold waitReply at h
      rcases hf : findR want (read_lines hs buf ev).1 with _ | l2
      · rw [hf] at h
        exact ih h
      · rw [hf] at h
        simp only [Prod.mk.injEq, Option.some.injEq] at h
        rw [← h.1]
        exact findR_some_starts hf

theorem send_counted_post_lastBandPersistence (st : FlexState) (b : List Char)
    (e : Bool) (evs : List RecvEvent) :
    (send_counted st b e evs).post.lastBandPersistence = st.lastBandPersistence := by
  unfold send_counted
  by_cases hc : (st.connected && st.hasSock) = true
  · rcases hw : waitReply st.hasSock (wantR (st.seq + 1)) evs st.rxbuf with ⟨ol, buf⟩
    cases ol <;> cases e <;> simp [hc, hw]
  · simp [hc]

theorem send_counted_post_connected (st : FlexState) (b : List Char)
    (e : Bool) (evs : List RecvEvent) :
    (send_counted st b e evs).post.connected = st.connected := by
  unfold send_counted
  by_cases hc : (st.connected && st.hasSock) = true
  · rcases hw : waitReply st.hasSock (wantR (st.seq + 1)) evs st.rxbuf with ⟨ol, buf⟩
    cases ol <;> cases e <;> simp [hc, hw]
  · simp [hc]

theorem send_counted_post_hasSock (st : FlexState) (b : List Char)
    (e : Bool) (evs : List RecvEvent) :
    (send_counted st b e evs).post.hasSock = st.hasSock := by
  unfold send_counted
  by_cases hc : (st.connected && st.hasSock) = true
  · rcases hw : waitReply st.hasSock (wantR (st.seq + 1)) evs st.rxbuf with ⟨ol, buf⟩
    cases ol <;> cases e <;> simp [hc, hw]
  · simp [hc]

theorem send_counted_connected_wire (st : FlexState) (b : List Char)
    (e : Bool) (evs : List RecvEvent)
    (h1 : st.connected = true) (h2 : st.hasSock = true) :
    (send_counted st b e evs).wire = [frameC (st.seq + 1) b] ∧
    (send_counted st b e evs).post.seq = st.seq + 1 := by
  unfold send_counted
  rcases hw : waitReply st.hasSock (wantR (st.seq + 1)) evs st.rxbuf with ⟨ol, buf⟩
  rw [h2] at hw
  cases ol <;> cases e <;> simp [h1, h2, hw]

theorem send_counted_expect_cases (st : FlexState) (b : List Char) (evs : List RecvEvent)
    (h1 : st.connected = true) (h2 : st.hasSock = true) :
    (∃ l, (send_counted st b true evs).result = .ok (some l) ∧
      startsW (wantR (st.seq + 1)) l = true) ∨
    (send_counted st b true evs).result = .error (.timeout (st.seq + 1) b) := by
  unfold send_counted
  rcases hw : waitReply st.hasSock (wantR (st.seq + 1)) evs st.rxbuf with ⟨ol, buf⟩
  rw [h2] at hw
  rcases ol with _ | l
  · right; simp [h1, h2, hw]
  · left
    exact ⟨l, by simp [h1, h2, hw], waitReply_some_starts hw⟩

theorem run_sends_frames (cmds : List (List Char × Bool × List RecvEvent)) :
    ∀ st : FlexState, st.connected = true → st.hasSock = true →
      (run_sends st cmds).1 =
        List.zipWith (fun n c => frameC n c.1) (List.range' (st.seq + 1) cmds.length) cmds ∧
      (run_sends st cmds).2.seq = st.seq + cmds.length := by
  induction cmds with
  | nil => intro st h1 h2; simp [run_sends]
  | cons c cs ih =>
      intro st h1 h2
      have hw := send_counted_connected_wire st c.1 c.2.1 c.2.2 h1 h2
      have hc := send_counted_post_connected st c.1 c.2.1 c.2.2
      have hhs := send_counted_post_hasSock st c.1 c.2.1 c.2.2
      have hih := ih (send_counted st c.1 c.2.1 c.2.2).post
        (by rw [hc]; exact h1) (by rw [hhs]; exact h2)
      refine ⟨?_, ?_⟩
      · simp only [run_sends, List.length_cons, List.range'_succ, List.zipWith_cons_cons]
        rw [hw.1, hih.1, hw.2]
        simp
      · simp only [run_sends]
        rw [hih.2, hw.2, List.length_cons]
        omega

theorem send_counted_noexpect (st : FlexState) (b : List Char) (evs : List RecvEvent)
    (h1 : st.connected = true) (h2 : st.hasSock = true) :
    send_counted st b false evs =
      ⟨[frameC (st.seq + 1) b], .ok none, { st with seq := st.seq + 1 }⟩ := by
  unfold send_counted
  simp [h1, h2]

theorem set_frequency_mhz_eq (st : FlexState) (f : ℚ) (evs : List RecvEvent)
    (h1 : st.connected = true) (h2 : st.hasSock = true) :
    set_frequency_mhz st f evs =
      ⟨[frameC (st.seq + 1) ("slice s 0 tx=1".data)] ++
         (send_counted { st with seq := st.seq + 1 }
           ("slice t 0 ".data ++ mhz f) true evs).wire,
       (send_counted { st with seq := st.seq + 1 }
         ("slice t 0 ".data ++ mhz f) true evs).result,
       (send_counted { st with seq := st.seq + 1 }
         ("slice t 0 ".data ++ mhz f) true evs).post⟩ := by
  unfold set_frequency_mhz
  rw [send_counted_noexpect st ("slice s 0 tx=1".data) [] h1 h2]

theorem set_frequency_mhz_post_lastBandPersistence (st : FlexState) (f : ℚ)
    (evs : List RecvEvent) :
    (set_frequency_mhz st f evs).post.lastBandPersistence = st.lastBandPersistence := by
  unfold set_frequency_mhz
  split
  next w1 e p1 heq =>
    have ha := send_counted_post_lastBandPersistence st ("slice s 0 tx=1".data) false []
    rw [heq] at ha
    exact ha
  next w1 v p1 heq =>
    have ha := send_counted_post_lastBandPersistence st ("slice s 0 tx=1".data) false []
    rw [heq] at ha
    split
    next w2 res2 p2 heq2 =>
      have hb := send_counted_post_lastBandPersistence p1 ("slice t 0 ".data ++ mhz f) true evs
      rw [heq2] at hb
      simp only at ha hb ⊢
      rw [hb, ha]

end Flex

/-! ## Claims -/

/-- C1: on one connection the sequence counter starts at 0 on (re)connect and
is pre-incremented before each send, so a run of N consecutive transactional
sends from a freshly (re)connected state places exactly the sequence numbers
1, 2, ..., N in the outgoing `C<seq>|` frames, in order, with no gaps or
repeats: the frames written are precisely `C1|...`, `C2|...`, ..., `CN|...`. -/
theorem flex_seq_numbers_one_to_N (st0 st : Flex.FlexState)
    (cmds : List (List Char × Bool × List Flex.RecvEvent))
    (h1 : st.connected = true) (h2 : st.hasSock = true) (h0 : st.seq = 0) :
    (Flex.connect_reset st0).seq = 0 ∧
    (Flex.run_sends st cmds).1 =
      List.zipWith (fun n c => Flex.frameC n c.1) (List.range' 1 cmds.length) cmds := by
  refine ⟨rfl, ?_⟩
  have h := Flex.run_sends_frames cmds st h1 h2
  rw [h0] at h
  simpa using h.1

/-- C1 witness: three consecutive sends from a fresh connection are framed
with sequence numbers 1, 2, 3. -/
theorem flex_seq_numbers_one_to_N_witness :
    (Flex.connect_reset ⟨false, false, 9, [], none⟩).seq = 0 ∧
    (Flex.run_sends ⟨true, true, 0, [], none⟩
        [("sub radio all".data, true, [Flex.RecvEvent.data ("R1|0|ok\n".data)]),
         ("transmit set rfpower=50".data, false, []),
         ("slice s 0 mode=USB".data, true, [])]).1 =
      List.zipWith (fun n c => Flex.frameC n c.1) (List.range' 1 3)
        [("sub radio all".data, true, [Flex.RecvEvent.data ("R1|0|ok\n".data)]),
         ("transmit set rfpower=50".data, false, []),
         ("slice s 0 mode=USB".data, true, [])] :=
  flex_seq_numbers_one_to_N ⟨false, false, 9, [], none⟩ ⟨true, true, 0, [], none⟩
    [("sub radio all".data, true, [Flex.RecvEvent.data ("R1|0|ok\n".data)]),
     ("transmit set rfpower=50".data, false, []),
     ("slice s 0 mode=USB".data, true, [])] rfl rfl rfl

/-- C2 counterexample: while `send` awaits sequence 7, a non-matching line
carrying `band_persistence_enabled=1` is read (the framer delivers it) and
discarded, yet the cached band-persistence state stays `none` — the claim
says the line is routed to the opportunistic scan, which would have set the
cache to `some true` (last conjunct). -/
theorem flex_send_no_scan_counterexample :
    (Flex.send_counted ⟨true, true, 6, [], none⟩ ("zzz".data) true
        [Flex.RecvEvent.data ("S0 radio band_persistence_enabled=1\nR7|0|ok\n".data)]).result
      = .ok (some ("R7|0|ok".data)) ∧
    (Flex.send_counted ⟨true, true, 6, [], none⟩ ("zzz".data) true
        [Flex.RecvEvent.data ("S0 radio band_persistence_enabled=1\nR7|0|ok\n".data)]).post.lastBandPersistence
      = none ∧
    (Flex.read_lines true []
        (Flex.RecvEvent.data ("S0 radio band_persistence_enabled=1\nR7|0|ok\n".data))).1
      = [("S0 radio band_persistence_enabled=1".data), ("R7|0|ok".data)] ∧
    (Flex.scan_for_band_persistence ⟨true, true, 6, [], none⟩
        [("S0 radio band_persistence_enabled=1".data)]).lastBandPersistence = some true := by
  decide

/-- C2 (amended): while the engine awaits the reply to sequence s inside
`send()`, every received line that does not start with `R{s}|` is discarded
WITHOUT being routed to the cached-state scan — the cached band-persistence
state is unchanged by `send()` — and a non-matching line is never returned
as the match (any returned line starts with `R{s}|`). -/
theorem flex_send_discards_without_scan (st : Flex.FlexState) (body : List Char)
    (evs : List Flex.RecvEvent) (h1 : st.connected = true) (h2 : st.hasSock = true) :
    (Flex.send_counted st body true evs).post.lastBandPersistence = st.lastBandPersistence ∧
    ∀ l, (Flex.send_counted st body true evs).result = .ok (some l) →
      startsW (Flex.wantR (st.seq + 1)) l = true := by
  refine ⟨Flex.send_counted_post_lastBandPersistence st body true evs, ?_⟩
  intro l hl
  rcases Flex.send_counted_expect_cases st body evs h1 h2 with ⟨l2, hr, hs⟩ | hr
  · obtain rfl : l2 = l := by simpa using hr.symm.trans hl
    exact hs
  · rw [hr] at hl
    simp at hl

/-- C2 witness: concrete instance of the amended claim. -/
theorem flex_send_discards_without_scan_witness :
    (Flex.send_counted ⟨true, true, 6, [], some false⟩ ("zzz".data) true
        [Flex.RecvEvent.data ("S0 radio band_persistence_enabled=1\nR7|0|ok\n".data)]).post.lastBandPersistence
      = some false ∧
    ∀ l, (Flex.send_counted ⟨true, true, 6, [], some false⟩ ("zzz".data) true
        [Flex.RecvEvent.data ("S0 radio band_persistence_enabled=1\nR7|0|ok\n".data)]).result
        = .ok (some l) →
      startsW (Flex.wantR 7) l = true :=
  flex_send_discards_without_scan ⟨true, true, 6, [], some false⟩ ("zzz".data)
    [Flex.RecvEvent.data ("S0 radio band_persistence_enabled=1\nR7|0|ok\n".data)] rfl rfl

/-- C3: for a transactional send that expects a reply, either a line starting
with the exact prefix `R{seq}|` is returned, or `send()` fails with a
`TimeoutError` carrying that exact sequence number and the command body —
it never returns a non-matching line and never fails silently. -/
theorem flex_send_timeout_exact (st : Flex.FlexState) (body : List Char)
    (evs : List Flex.RecvEvent) (h1 : st.connected = true) (h2 : st.hasSock = true) :
    (∃ l, (Flex.send_counted st body true evs).result = .ok (some l) ∧
        startsW (Flex.wantR (st.seq + 1)) l = true) ∨
    (Flex.send_counted st body true evs).result =
      .error (Flex.FlexError.timeout (st.seq + 1) body) :=
  Flex.send_counted_expect_cases st body evs h1 h2

/-- C3 witness: with no matching reply before the deadline, the concrete send
of sequence 1 fails with the timeout error naming sequence 1 and the body. -/
theorem flex_send_timeout_exact_witness :
    (∃ l, (Flex.send_counted ⟨true, true, 0, [], none⟩ ("info".data) true []).result
        = .ok (some l) ∧ startsW (Flex.wantR 1) l = true) ∨
    (Flex.send_counted ⟨true, true, 0, [], none⟩ ("info".data) true []).result =
      .error (Flex.FlexError.timeout 1 ("info".data)) :=
  flex_send_timeout_exact ⟨true, true, 0, [], none⟩ ("info".data) [] rfl rfl

/-- C4 counterexample: the Flex engine receives the reply `R3|0|ok`, whose
embedded sequence 3 differs from the sequence 1 just sent, yet no error is
raised: the mismatched reply is silently skipped and the send succeeds with
the later matching reply `R1|0|fine`. -/
theorem flex_mismatched_reply_silently_skipped :
    (Flex.read_lines true [] (Flex.RecvEvent.data ("R3|0|ok\nR1|0|fine\n".data))).1
      = [("R3|0|ok".data), ("R1|0|fine".data)] ∧
    (Flex.send_counted ⟨true, true, 0, [], none⟩ ("x".data) true
        [Flex.RecvEvent.data ("R3|0|ok\nR1|0|fine\n".data)]).result
      = .ok (some ("R1|0|fine".data)) := by
  decide

/-- C4 (amended): in the PGXL engine a reply line whose embedded numeric
sequence differs from the transaction id just sent raises the
counter-mismatch error naming both numbers; in the Flex engine replies to
other sequence numbers are silently skipped by the prefix scan (see the
counterexample), not raised. -/
theorem pgxl_counter_mismatch_raises (st : Pgxl.PGXLState) (body recvData pre rest : List Char)
    (m : Int) (hs : st.hasSock = true)
    (hR : startsW ("R".data) (stripL recvData) = true)
    (hbar : Pgxl.splitAtChar '|' (stripL recvData) = some (pre, rest))
    (hecho : parseInt (pre.drop 1) = some m)
    (hne : m ≠ ((st.tx_id + 1 : Nat) : Int)) :
    (Pgxl.send_counted st body recvData).result =
      .error (Pgxl.PgxlError.counterMismatch (st.tx_id + 1) m) := by
  have hecho2 : parseInt pre.tail = some m := by
    rw [← List.drop_one]; exact hecho
  have hne2 : m ≠ (st.tx_id : Int) + 1 := by exact_mod_cast hne
  unfold Pgxl.send_counted
  simp [hs, hR, hbar, hecho2, hne2]

/-- C4 witness: a reply echoing counter 2 while transaction 1 was sent makes
the PGXL engine raise the mismatch error naming 1 and 2. -/
theorem pgxl_counter_mismatch_raises_witness :
    startsW ("R".data) (stripL ("R2|0|ok".data)) = true ∧
    (Pgxl.send_counted ⟨true, 0⟩ ("status".data) ("R2|0|ok".data)).result =
      .error (Pgxl.PgxlError.counterMismatch 1 2) :=
  ⟨by decide,
   pgxl_counter_mismatch_raises ⟨true, 0⟩ ("status".data) ("R2|0|ok".data)
     ("R2".data) ("0|ok".data) 2 rfl (by decide) (by decide) (by decide) (by decide)⟩

/-- C5: a transactional send attempted while the session is not connected
(cleared connected flag or no socket for the Flex engine; no socket for the
PGXL engine) fails with the not-connected error, writes nothing to the wire,
and leaves the whole state — sequence counter and receive buffer included —
unchanged. -/
theorem send_not_connected_noop :
    (∀ (st : Flex.FlexState) (body : List Char) (e : Bool) (evs : List Flex.RecvEvent),
        (st.connected && st.hasSock) = false →
        Flex.send_counted st body e evs =
          ⟨[], .error Flex.FlexError.notConnected, st⟩) ∧
    (∀ (pst : Pgxl.PGXLState) (body recvData : List Char), pst.hasSock = false →
        Pgxl.send_counted pst body recvData =
          ⟨[], .error Pgxl.PgxlError.notConnected, pst⟩) := by
  constructor
  · intro st body e evs h
    unfold Flex.send_counted
    simp [h]
  · intro pst body recvData h
    unfold Pgxl.send_counted
    simp [h]

/-- C5 witness: concrete disconnected sends on both engines. -/
theorem send_not_connected_noop_witness :
    Flex.send_counted ⟨false, false, 3, ("abc".data), some true⟩ ("status".data) true [] =
      ⟨[], .error Flex.FlexError.notConnected, ⟨false, false, 3, ("abc".data), some true⟩⟩ ∧
    Pgxl.send_counted ⟨false, 5⟩ ("status".data) ("R6|0|ok".data) =
      ⟨[], .error Pgxl.PgxlError.notConnected, ⟨false, 5⟩⟩ :=
  ⟨send_not_connected_noop.1 ⟨false, false, 3, ("abc".data), some true⟩ ("status".data) true [] rfl,
   send_not_connected_noop.2 ⟨false, 5⟩ ("status".data) ("R6|0|ok".data) rfl⟩

/-- C6: given the matched reply `R7|0|vdd=48.1 id=2.3 fanmode=AUTO` while the
engine awaits sequence 7 (transaction counter at 6), the telemetry query
returns drain voltage 48.1, drain current 2.3, fan mode "AUTO", and every
mapped numeric field absent from the reply (SWR, forward power, both
temperatures) as the explicit unknown `none` rather than zero; and for any
reply whose key-values parse, building the telemetry record never raises
(last conjunct), so non-numeric or missing keys cannot make the query fail. -/
theorem pgxl_telemetry_example :
    (Pgxl.telemetry ⟨true, 6⟩ ("R7|0|vdd=48.1 id=2.3 fanmode=AUTO".data)).2.1 =
      .ok { Vd := some (mkRat 481 10), Id := some (mkRat 23 10), SWR := none, PoutW := none,
            PA_TempC := none, PS_TempC := none, Fan := some ("AUTO".data), Faults := [],
            raw := [("vdd".data, "48.1".data), ("id".data, "2.3".data),
                    ("fanmode".data, "AUTO".data)] } ∧
    mkRat 481 10 = (48.1 : ℚ) ∧ mkRat 23 10 = (2.3 : ℚ) ∧
    (∀ (reply s : List Char) (kv : List (List Char × List Char)),
        Pgxl.parse_keyvals reply = .ok (s, kv) →
        ∃ t, Pgxl.telemetry_of_reply reply = .ok t) := by
  refine ⟨by decide, by rw [Rat.mkRat_eq_div]; norm_num, by rw [Rat.mkRat_eq_div]; norm_num, ?_⟩
  intro reply s kv h
  exact ⟨_, by unfold Pgxl.telemetry_of_reply; rw [h]⟩

/-- C6 witness: the never-raises conjunct applied to the example reply. -/
theorem pgxl_telemetry_example_witness :
    ∃ t, Pgxl.telemetry_of_reply ("R7|0|vdd=48.1 id=2.3 fanmode=AUTO".data) = .ok t :=
  pgxl_telemetry_example.2.2.2 ("R7|0|vdd=48.1 id=2.3 fanmode=AUTO".data) ("0".data)
    [("vdd".data, "48.1".data), ("id".data, "2.3".data), ("fanmode".data, "AUTO".data)]
    (by decide)

/-- C7: `set_band` with a band index absent from the fixed
band→center-frequency table fails with the unsupported-band error, writes no
frame, and leaves the whole connection state (sequence counter included)
unchanged; with a band index present in the table, the command sent on the
wire tunes to that band's center frequency (the second frame body carries
the 6-decimal formatting of the table's center). -/
theorem flex_set_band_cases (st : Flex.FlexState) (b : Int) (evs : List Flex.RecvEvent)
    (h1 : st.connected = true) (h2 : st.hasSock = true) :
    (Flex.band_center_mhz b = none →
      Flex.set_band st b evs = ⟨[], .error (Flex.FlexError.unsupportedBand b), st⟩) ∧
    (∀ c : ℚ, Flex.band_center_mhz b = some c →
      (Flex.set_band st b evs).wire =
        [Flex.frameC (st.seq + 1) ("slice s 0 tx=1".data),
         Flex.frameC (st.seq + 2) ("slice t 0 ".data ++ Flex.mhz c)]) := by
  constructor
  · intro h
    unfold Flex.set_band
    rw [h]
  · intro c h
    unfold Flex.set_band
    rw [h]
    show (Flex.set_frequency_mhz st c evs).wire = _
    rw [Flex.set_frequency_mhz_eq st c evs h1 h2]
    have hw := Flex.send_counted_connected_wire { st with seq := st.seq + 1 }
      ("slice t 0 ".data ++ Flex.mhz c) true evs (by simpa using h1) (by simpa using h2)
    rw [hw.1]
    rfl

/-- C7 witness: band 42 m is rejected with nothing sent; band 160 m tunes to
the table's 1.900 MHz center. -/
theorem flex_set_band_cases_witness :
    Flex.set_band ⟨true, true, 0, [], none⟩ 42 [] =
      ⟨[], .error (Flex.FlexError.unsupportedBand 42), ⟨true, true, 0, [], none⟩⟩ ∧
    (Flex.set_band ⟨true, true, 0, [], none⟩ 160 []).wire =
      [Flex.frameC 1 ("slice s 0 tx=1".data),
       Flex.frameC 2 ("slice t 0 ".data ++ Flex.mhz (1.900 : ℚ))] :=
  ⟨(flex_set_band_cases ⟨true, true, 0, [], none⟩ 42 [] rfl rfl).1 rfl,
   (flex_set_band_cases ⟨true, true, 0, [], none⟩ 160 [] rfl rfl).2 (1.900 : ℚ) rfl⟩

/-- C8 counterexample: the façade operation `set_band_persistence` writes the
cached band-persistence flag directly (flex.py line 133) with no received
line ever passing through the opportunistic scanner — the cache is NOT
updated only by the unsolicited-line scanner. -/
theorem flex_cache_written_by_set_band_persistence :
    (Flex.set_band_persistence ⟨true, true, 0, [], none⟩ true).post.lastBandPersistence
      = some true ∧
    (Flex.set_band_persistence ⟨true, true, 0, [], none⟩ true).wire =
      [Flex.frameC 1 ("radio set band_persistence_enabled=1".data)] := by
  decide

/-- C8 (amended): the cached band-persistence flag is written by exactly two
paths — the unsolicited-line scanner, and `set_band_persistence`, which
records the value it just commanded after a successful fire-and-forget send;
every other façade operation leaves the cache unchanged, and the cached read
returns the stored value purely, issuing no transaction. -/
theorem flex_cache_update_paths (st : Flex.FlexState) :
    Flex.get_band_persistence_cached st = st.lastBandPersistence ∧
    (∀ mode evs, (Flex.set_mode st mode evs).post.lastBandPersistence
        = st.lastBandPersistence) ∧
    (∀ f evs, (Flex.set_frequency_mhz st f evs).post.lastBandPersistence
        = st.lastBandPersistence) ∧
    (∀ b evs, (Flex.set_band st b evs).post.lastBandPersistence
        = st.lastBandPersistence) ∧
    (∀ p, (Flex.set_rf_power_pct st p).post.lastBandPersistence
        = st.lastBandPersistence) ∧
    (∀ p, (Flex.set_tune_power_pct st p).post.lastBandPersistence
        = st.lastBandPersistence) ∧
    (∀ w evs, (Flex.key_carrier_on st w evs).post.lastBandPersistence
        = st.lastBandPersistence) ∧
    (∀ w evs, (Flex.key_carrier_off st w evs).post.lastBandPersistence
        = st.lastBandPersistence) ∧
    (∀ e, (Flex.set_two_tone st e).post.lastBandPersistence
        = st.lastBandPersistence) ∧
    (st.connected = true → st.hasSock = true →
      ∀ e, (Flex.set_band_persistence st e).post.lastBandPersistence = some e) := by
  refine ⟨rfl, fun mode evs => Flex.send_counted_post_lastBandPersistence st _ true evs,
    fun f evs => Flex.set_frequency_mhz_post_lastBandPersistence st f evs,
    fun b evs => ?_,
    fun p => Flex.send_counted_post_lastBandPersistence st _ false [],
    fun p => Flex.send_counted_post_lastBandPersistence st _ false [],
    fun w evs => Flex.send_counted_post_lastBandPersistence st _ w evs,
    fun w evs => Flex.send_counted_post_lastBandPersistence st _ w evs,
    fun e => Flex.send_counted_post_lastBandPersistence st _ false [],
    fun h1 h2 e => ?_⟩
  · unfold Flex.set_band
    rcases hb : Flex.band_center_mhz b with _ | c
    · rfl
    · exact Flex.set_frequency_mhz_post_lastBandPersistence st c evs
  · unfold Flex.set_band_persistence
    rw [Flex.send_counted_noexpect st _ [] h1 h2]

/-- C8 witness: concrete instance of the amended claim. -/
theorem flex_cache_update_paths_witness :
    Flex.get_band_persistence_cached ⟨true, true, 0, [], some false⟩ = some false ∧
    (∀ e, (Flex.set_band_persistence ⟨true, true, 0, [], some false⟩ e).post.lastBandPersistence
        = some e) :=
  ⟨(flex_cache_update_paths ⟨true, true, 0, [], some false⟩).1,
   (flex_cache_update_paths ⟨true, true, 0, [], some false⟩).2.2.2.2.2.2.2.2.2 rfl rfl⟩

/-- C9 counterexample: after `disconnect`, the cached band-persistence flag
still reads as its previous value `some true` — it is NOT reset to unknown
(`disconnect` clears only the socket, the connected flag and the buffer). -/
theorem flex_disconnect_cache_persists_counterexample :
    Flex.get_band_persistence_cached
      (Flex.disconnect ⟨true, true, 5, ("x".data), some true⟩) = some true := by
  decide

/-- C9 (amended): `disconnect` is always safe and idempotent (a second call
changes nothing), and afterwards the receive buffer is empty, the session is
marked disconnected and the socket is dropped — but the cached
band-persistence flag keeps its previous value instead of resetting to
unknown. -/
theorem flex_disconnect_idempotent (st : Flex.FlexState) :
    Flex.disconnect (Flex.disconnect st) = Flex.disconnect st ∧
    (Flex.disconnect st).connected = false ∧
    (Flex.disconnect st).hasSock = false ∧
    (Flex.disconnect st).rxbuf = [] ∧
    Flex.get_band_persistence_cached (Flex.disconnect st) = st.lastBandPersistence := by
  unfold Flex.disconnect Flex.get_band_persistence_cached
  exact ⟨rfl, rfl, rfl, rfl, rfl⟩

/-- C10: in the telemetry query the PA temperature falls back from `hltemp`
to `temp` through Python's truthiness `or`, so a reply whose `hltemp` parses
to the float 0.0 yields a PA temperature taken from `temp` (or unknown if
`temp` is absent) — a reported zero `hltemp` is indistinguishable from an
absent one at the public interface. -/
theorem pgxl_hltemp_zero_falls_back (reply s : List Char)
    (kv : List (List Char × List Char))
    (hp : Pgxl.parse_keyvals reply = .ok (s, kv))
    (h0 : Pgxl.fget kv ("hltemp".data) = some 0) :
    ∃ t, Pgxl.telemetry_of_reply reply = .ok t ∧
      t.PA_TempC = Pgxl.fget kv ("temp".data) := by
  unfold Pgxl.telemetry_of_reply
  rw [hp]
  refine ⟨_, rfl, ?_⟩
  simp [Pgxl.pyOrFloat, h0]

/-- C10 witness: the reply `R7|0|hltemp=0.0 temp=31.5` reports PA
temperature 31.5 (the `temp` value), not the transmitted 0.0. -/
theorem pgxl_hltemp_zero_falls_back_witness :
    ∃ t, Pgxl.telemetry_of_reply ("R7|0|hltemp=0.0 temp=31.5".data) = .ok t ∧
      t.PA_TempC = Pgxl.fget [("hltemp".data, "0.0".data), ("temp".data, "31.5".data)]
        ("temp".data) :=
  pgxl_hltemp_zero_falls_back ("R7|0|hltemp=0.0 temp=31.5".data) ("0".data)
    [("hltemp".data, "0.0".data), ("temp".data, "31.5".data)] (by decide) (by decide)
